import Mathlib

/-!
Shallow embedding of `garage_parking_assistant.ino` (variant 0.10, the
authoritative source file) from jeboo/Garage_Parking_Assistant.

The sketch reads an ultrasonic distance each loop iteration and drives two
WS2812 LED strips.  Machine integers (`int` on AVR) stay well inside their
range for every quantity modelled here, so they are embedded as `Int`;
C integer division truncates toward zero, which is `Int.tdiv`.
-/

set_option autoImplicit false

namespace GarageParking

/-- Colors actually written to the strips by the sketch
(`CRGB::Black/Red/Orange/Green/White`). -/
inductive CRGB where
  | Black
  | Red
  | Orange
  | Green
  | White
deriving DecidableEq, Repr

/-- `#define NUM_LEDS 30` — number of LEDs on each side. -/
def NUM_LEDS : Nat := 30

/-- `#define AMBER_LEDS 5` — number of amber LEDs when the car is close to stop. -/
def AMBER_LEDS : Int := 5

/-- `#define DISTANCE_TOLERANCE 5` — tolerance (cm) for the car-stopped check. -/
def DISTANCE_TOLERANCE : Int := 5

/-- `#define LED_TIMEOUT 60000` — milliseconds before sleep once the car stopped. -/
def LED_TIMEOUT : Nat := 60000

/-- `const int startdistance = 400` — distance (cm) at which the scan begins. -/
def startdistance : Int := 400

/-- `int stopdistance = 10` — the static initializer of the parking position. -/
def staticStopdistance : Int := 10

/-- Color assigned to LED index `i` by the display block of `loop()`
(`garage_parking_assistant.ino` lines 155-186), as a function of the current
configuration and measured distance:

* `distance > startdistance` → all black;
* `distance <= stopdistance` → red, except black when `distance` is zero
  (the C condition `distance ? CRGB::Red : CRGB::Black`);
* otherwise LED `i` is lit iff `distance > stopdistance + increment*i`, and a
  lit LED is orange iff `distance <= stopdistance + AMBER_LEDS*increment`,
  green otherwise. -/
def ledColor (startD stopD inc amber d : Int) (i : Nat) : CRGB :=
  if startD < d then CRGB.Black
  else if d ≤ stopD then (if d = 0 then CRGB.Black else CRGB.Red)
  else if stopD + inc * (i : Int) < d then
    (if d ≤ stopD + amber * inc then CRGB.Orange else CRGB.Green)
  else CRGB.Black

/-- One strip's contents after the display block: the loop
`for (i = 0; i < NUM_LEDS; i++)` writing `ledColor` at each index. -/
def stripColors (startD stopD inc amber d : Int) (n : Nat) : List CRGB :=
  (List.range n).map (ledColor startD stopD inc amber d)

/-- Number of lit (non-black) LEDs in a strip buffer. -/
def countLit (l : List CRGB) : Nat :=
  (l.filter (fun c => decide (c ≠ CRGB.Black))).length

/-- The stop-distance resulting from `setup()`:
`if (!stopdistance) { stopdistance = eeprom_read_word(&stopdistance_ee); }` —
the persisted value is loaded only when the static initializer is zero. -/
def setupStopdistance (staticStop eeVal : Int) : Int :=
  if staticStop = 0 then eeVal else staticStop

/-- Modelled from the spec: the persistent-storage collaborator
(`eeprom_read_word`, not part of src/) returns an implementation-defined
default for a never-written calibration word, "commonly 0"; the spec's common
default 0 is the value modelled here. -/
def eepromNeverWrittenDefault : Int := 0

/-- Modelled from the spec: the IdleTimer (the MillisTimer library, not part
of src/) is a state machine with states Idle, Running and Expired-handled;
`setRepeats(0)` makes it one-shot. -/
inductive TimerPhase where
  | idle
  | running (elapsed : Nat)
  | expiredHandled
deriving DecidableEq, Repr

/-- Modelled from the spec: `start()` begins the countdown if not already
running; after expiry the timer stays dormant until explicitly reset. -/
def timerStart : TimerPhase → TimerPhase
  | TimerPhase.idle => TimerPhase.running 0
  | p => p

/-- Modelled from the spec: `reset()` cancels the countdown and returns the
timer to Idle from any state. -/
def timerReset (_ : TimerPhase) : TimerPhase := TimerPhase.idle

/-- Modelled from the spec: `isRunning()` holds exactly in the Running state. -/
def isRunning : TimerPhase → Bool
  | TimerPhase.running _ => true
  | _ => false

/-- Modelled from the spec: `tick(now)` advances the countdown by the elapsed
time `dt`; when elapsed ≥ duration it fires the one-shot callback exactly once
(the returned Bool) and moves to Expired-handled, where it stays dormant. -/
def timerTick (dur dt : Nat) : TimerPhase → TimerPhase × Bool
  | TimerPhase.running e =>
      if dur ≤ e + dt then (TimerPhase.expiredHandled, true)
      else (TimerPhase.running (e + dt), false)
  | p => (p, false)

/-- An operation applied to the IdleTimer in a trace. -/
inductive TimerOp where
  | start
  | reset
  | tick (dt : Nat)
deriving DecidableEq, Repr

/-- Apply one timer operation, reporting whether the callback fired. -/
def timerStep (dur : Nat) (p : TimerPhase) : TimerOp → TimerPhase × Bool
  | TimerOp.start => (timerStart p, false)
  | TimerOp.reset => (timerReset p, false)
  | TimerOp.tick dt => timerTick dur dt p

/-- Number of callback firings along a trace of timer operations. -/
def countFires (dur : Nat) (p : TimerPhase) : List TimerOp → Nat
  | [] => 0
  | op :: ops =>
      match timerStep dur p op with
      | (p2, fired) => (if fired then 1 else 0) + countFires dur p2 ops

/-- Global mutable state of the sketch: the module-level variables of
`garage_parking_assistant.ino` touched by `loop()`, `setup()` and
`sleepmode_start()`, plus the persisted calibration word. -/
structure SysState where
  previous_distance : Int
  stopdistance : Int
  increment : Int
  eeprom : Int
  LED_sleep : Bool
  timer : TimerPhase
  ledsL : List CRGB
  ledsR : List CRGB
deriving DecidableEq, Repr

/-- `sleepmode_start()`: blank both strips, show, reset the timer and set the
sleep flag. -/
def sleepmode_start (st : SysState) : SysState :=
  { st with
    ledsL := List.replicate NUM_LEDS CRGB.Black
    ledsR := List.replicate NUM_LEDS CRGB.Black
    timer := timerReset st.timer
    LED_sleep := true }

/-- `timer.run()` at the top of `loop()`: advance the timer by the time `dt`
elapsed since the previous iteration; on expiry the registered handler
`sleepmode_start` runs. -/
def runTimerStep (st : SysState) (dt : Nat) : SysState :=
  if (timerTick LED_TIMEOUT dt st.timer).2 then
    sleepmode_start { st with timer := (timerTick LED_TIMEOUT dt st.timer).1 }
  else { st with timer := (timerTick LED_TIMEOUT dt st.timer).1 }

/-- The stability check of `loop()`: within tolerance, start the timer when it
is not running and the display is awake; otherwise record the new distance,
reset the timer and clear the sleep flag. -/
def stabilityStep (st : SysState) (d : Int) : SysState :=
  if |d - st.previous_distance| < DISTANCE_TOLERANCE then
    if isRunning st.timer = false ∧ st.LED_sleep = false then
      { st with timer := timerStart st.timer }
    else st
  else
    { st with
      previous_distance := d
      timer := timerReset st.timer
      LED_sleep := false }

/-- The button check of `loop()`: while the button reads LOW, take the current
distance as the new stop distance, persist it (`eeprom_write_word` stores a
`uint16_t`) and recompute the increment. -/
def buttonStep (st : SysState) (pressed : Bool) (d : Int) : SysState :=
  if pressed then
    { st with
      stopdistance := d
      eeprom := d.emod 65536
      increment := (startdistance - d).tdiv (NUM_LEDS : Int) }
  else st

/-- The display block of `loop()`: when awake, write the zone colors to both
strip buffers and show; when asleep, leave the buffers untouched. -/
def displayStep (st : SysState) (d : Int) : SysState :=
  if st.LED_sleep = false then
    { st with
      ledsL := stripColors startdistance st.stopdistance st.increment AMBER_LEDS d NUM_LEDS
      ledsR := stripColors startdistance st.stopdistance st.increment AMBER_LEDS d NUM_LEDS }
  else st

/-- One full iteration of `loop()`: timer run, sensor read (the measured
distance `d` is an input), stability check, button check, display. -/
def loopCycle (st : SysState) (dt : Nat) (d : Int) (pressed : Bool) : SysState :=
  displayStep (buttonStep (stabilityStep (runTimerStep st dt) d) pressed d) d

/-- State after `setup()` for a persisted calibration word `eeVal`: the static
stop distance (10) is kept unless it is zero, the increment is derived once,
the version flash ends with both strips cleared, and the timer is configured
but not started.  Global ints (`previous_distance`) are zero-initialized. -/
def initState (eeVal : Int) : SysState :=
  { previous_distance := 0
    stopdistance := setupStopdistance staticStopdistance eeVal
    increment := (startdistance - setupStopdistance staticStopdistance eeVal).tdiv (NUM_LEDS : Int)
    eeprom := eeVal
    LED_sleep := false
    timer := TimerPhase.idle
    ledsL := List.replicate NUM_LEDS CRGB.Black
    ledsR := List.replicate NUM_LEDS CRGB.Black }

/-! ## Helper lemmas about the display computation -/

theorem stripColors_length (startD stopD inc amber d : Int) (n : Nat) :
    (stripColors startD stopD inc amber d n).length = n := by
  simp [stripColors]

theorem stripColors_getElem? (startD stopD inc amber d : Int) (n i : Nat) (hi : i < n) :
    (stripColors startD stopD inc amber d n)[i]? = some (ledColor startD stopD inc amber d i) := by
  simp [stripColors, List.getElem?_map, List.getElem?_range, hi]

theorem stripColors_red (startD stopD inc amber d : Int) (n : Nat)
    (h0 : 0 < d) (hstop : d ≤ stopD) (hrange : stopD ≤ startD) :
    stripColors startD stopD inc amber d n = List.replicate n CRGB.Red := by
  rw [List.eq_replicate_iff]
  refine ⟨stripColors_length .., ?_⟩
  intro b hb
  simp only [stripColors, List.mem_map, List.mem_range] at hb
  obtain ⟨i, _, rfl⟩ := hb
  unfold ledColor
  rw [if_neg (by omega), if_pos hstop, if_neg (by omega)]

theorem stripColors_zero_black (startD stopD inc amber : Int) (n : Nat)
    (hstop : 0 ≤ stopD) :
    stripColors startD stopD inc amber 0 n = List.replicate n CRGB.Black := by
  rw [List.eq_replicate_iff]
  refine ⟨stripColors_length .., ?_⟩
  intro b hb
  simp only [stripColors, List.mem_map, List.mem_range] at hb
  obtain ⟨i, _, rfl⟩ := hb
  unfold ledColor
  by_cases hs : startD < 0
  · rw [if_pos hs]
  · rw [if_neg hs, if_pos hstop, if_pos rfl]

theorem ledColor_ne_black_iff (startD stopD inc amber d : Int) (i : Nat)
    (hlo : stopD < d) (hhi : d ≤ startD) :
    ledColor startD stopD inc amber d i ≠ CRGB.Black ↔ stopD + inc * (i : Int) < d := by
  unfold ledColor
  rw [if_neg (by omega), if_neg (by omega)]
  by_cases hlit : stopD + inc * (i : Int) < d
  · rw [if_pos hlit]
    by_cases ha : d ≤ stopD + amber * inc
    · rw [if_pos ha]
      exact iff_of_true (by decide) hlit
    · rw [if_neg ha]
      exact iff_of_true (by decide) hlit
  · rw [if_neg hlit]
    exact iff_of_false (by simp) hlit

/-! ## C1, C2, C4: display-zone claims -/

/-- C1: in the graduated zone (`stopDistance < distance ≤ startDistance`)
every lit LED (one with `stopDistance + increment*i < distance`) is amber
exactly when `distance ≤ stopDistance + amberLedCount*increment` and green
exactly otherwise — a single comparison independent of the LED index. -/
theorem C1_amber_green_cutoff (startD stopD inc amber d : Int) (i : Nat)
    (hlo : stopD < d) (hhi : d ≤ startD)
    (hlit : stopD + inc * (i : Int) < d) :
    (ledColor startD stopD inc amber d i = CRGB.Orange ↔ d ≤ stopD + amber * inc) ∧
    (ledColor startD stopD inc amber d i = CRGB.Green ↔ ¬ d ≤ stopD + amber * inc) := by
  unfold ledColor
  rw [if_neg (by omega), if_neg (by omega), if_pos hlit]
  by_cases ha : d ≤ stopD + amber * inc
  · rw [if_pos ha]
    exact ⟨iff_of_true rfl ha, iff_of_false (by decide) (not_not_intro ha)⟩
  · rw [if_neg ha]
    exact ⟨iff_of_false (by decide) ha, iff_of_true rfl ha⟩

theorem C1_amber_green_cutoff_witness :
    ((ledColor 400 10 13 5 30 0 = CRGB.Orange ↔ (30 : Int) ≤ 10 + 5 * 13) ∧
     (ledColor 400 10 13 5 30 0 = CRGB.Green ↔ ¬ (30 : Int) ≤ 10 + 5 * 13)) ∧
    ((ledColor 400 10 13 5 100 0 = CRGB.Orange ↔ (100 : Int) ≤ 10 + 5 * 13) ∧
     (ledColor 400 10 13 5 100 0 = CRGB.Green ↔ ¬ (100 : Int) ≤ 10 + 5 * 13)) :=
  ⟨C1_amber_green_cutoff 400 10 13 5 30 0 (by decide) (by decide) (by decide),
   C1_amber_green_cutoff 400 10 13 5 100 0 (by decide) (by decide) (by decide)⟩

/-- C2: when awake and `0 < distance ≤ stopDistance ≤ startDistance`, the
display computation fills both strip buffers entirely with red; at
`distance = 0` it fills both entirely with black instead. -/
theorem C2_stop_zone_red_zero_black (st : SysState) (d : Int)
    (hawake : st.LED_sleep = false)
    (h0 : 0 < d) (hstop : d ≤ st.stopdistance)
    (hrange : st.stopdistance ≤ startdistance) :
    ((displayStep st d).ledsL = List.replicate NUM_LEDS CRGB.Red ∧
     (displayStep st d).ledsR = List.replicate NUM_LEDS CRGB.Red) ∧
    ((displayStep st 0).ledsL = List.replicate NUM_LEDS CRGB.Black ∧
     (displayStep st 0).ledsR = List.replicate NUM_LEDS CRGB.Black) := by
  have hred := stripColors_red startdistance st.stopdistance st.increment AMBER_LEDS d
    NUM_LEDS h0 hstop hrange
  have hblack := stripColors_zero_black startdistance st.stopdistance st.increment AMBER_LEDS
    NUM_LEDS (by omega)
  unfold displayStep
  rw [if_pos hawake, if_pos hawake]
  exact ⟨⟨hred, hred⟩, ⟨hblack, hblack⟩⟩

theorem C2_stop_zone_red_zero_black_witness :
    (((displayStep (initState 0) 7).ledsL = List.replicate NUM_LEDS CRGB.Red ∧
      (displayStep (initState 0) 7).ledsR = List.replicate NUM_LEDS CRGB.Red) ∧
     ((displayStep (initState 0) 0).ledsL = List.replicate NUM_LEDS CRGB.Black ∧
      (displayStep (initState 0) 0).ledsR = List.replicate NUM_LEDS CRGB.Black)) :=
  C2_stop_zone_red_zero_black (initState 0) 7 (by decide) (by decide) (by decide) (by decide)

/-- C4: with the configured `startdistance = 400`, `stopdistance = 10`,
`NUM_LEDS = 30` and `AMBER_LEDS = 5`, the increment derived at setup is 13,
and at `distance = 100` the display lights exactly the 7 LEDs of indices
0 through 6, all green and none amber. -/
theorem C4_reference_scenario :
    (∀ e : Int, (initState e).increment = 13) ∧
    (startdistance - 10).tdiv (NUM_LEDS : Int) = 13 ∧
    stripColors startdistance 10 13 AMBER_LEDS 100 NUM_LEDS =
      List.replicate 7 CRGB.Green ++ List.replicate 23 CRGB.Black ∧
    countLit (stripColors startdistance 10 13 AMBER_LEDS 100 NUM_LEDS) = 7 := by
  refine ⟨?_, by decide, by decide, by decide⟩
  intro e
  show (startdistance - setupStopdistance staticStopdistance e).tdiv (NUM_LEDS : Int) = 13
  rw [setupStopdistance, if_neg (by decide)]
  decide

/-- C3: in the graduated zone the lit LEDs form a contiguous block starting at
index 0 (no off LED precedes a lit one), and the number of lit LEDs is
monotonically non-decreasing in the distance over that zone (for the
non-negative increment derived at setup). -/
theorem C3_contiguous_monotone (startD stopD inc amber d1 d2 : Int) (n : Nat)
    (hinc : 0 ≤ inc) (hlo : stopD < d1) (h12 : d1 ≤ d2) (hhi : d2 ≤ startD) :
    (∀ j k : Nat, k ≤ j → j < n →
        (stripColors startD stopD inc amber d1 n)[j]? ≠ some CRGB.Black →
        (stripColors startD stopD inc amber d1 n)[k]? ≠ some CRGB.Black) ∧
    countLit (stripColors startD stopD inc amber d1 n) ≤
      countLit (stripColors startD stopD inc amber d2 n) := by
  have hhi1 : d1 ≤ startD := le_trans h12 hhi
  constructor
  · intro j k hkj hj hjlit
    have hj' : ledColor startD stopD inc amber d1 j ≠ CRGB.Black := by
      rw [stripColors_getElem? startD stopD inc amber d1 n j hj] at hjlit
      simpa using hjlit
    have hlitj := (ledColor_ne_black_iff startD stopD inc amber d1 j hlo hhi1).mp hj'
    have hmul : inc * (k : Int) ≤ inc * (j : Int) :=
      mul_le_mul_of_nonneg_left (by exact_mod_cast hkj) hinc
    have hk' : ledColor startD stopD inc amber d1 k ≠ CRGB.Black :=
      (ledColor_ne_black_iff startD stopD inc amber d1 k hlo hhi1).mpr (by omega)
    rw [stripColors_getElem? startD stopD inc amber d1 n k (lt_of_le_of_lt hkj hj)]
    simpa using hk'
  · unfold countLit stripColors
    rw [← List.countP_eq_length_filter, ← List.countP_eq_length_filter,
        List.countP_map, List.countP_map]
    apply List.countP_mono_left
    intro i _ hp
    simp only [Function.comp, decide_eq_true_eq] at hp ⊢
    have hl1 := (ledColor_ne_black_iff startD stopD inc amber d1 i hlo hhi1).mp hp
    exact (ledColor_ne_black_iff startD stopD inc amber d2 i
      (lt_of_lt_of_le hlo h12) hhi).mpr (by omega)

theorem C3_contiguous_monotone_witness :
    (stripColors 400 10 13 5 100 30)[0]? ≠ some CRGB.Black ∧
    countLit (stripColors 400 10 13 5 100 30) ≤
      countLit (stripColors 400 10 13 5 200 30) := by
  have h := C3_contiguous_monotone 400 10 13 5 100 200 30
    (by decide) (by decide) (by decide) (by decide)
  exact ⟨h.1 6 0 (by decide) (by decide) (by decide), h.2⟩

/-! ## Helper lemmas about the IdleTimer -/

theorem countFires_expiredHandled (dur : Nat) (ops : List TimerOp)
    (h : TimerOp.reset ∉ ops) :
    countFires dur TimerPhase.expiredHandled ops = 0 := by
  induction ops with
  | nil => rfl
  | cons op ops ih =>
      have htail : TimerOp.reset ∉ ops := fun hm => h (List.mem_cons_of_mem _ hm)
      cases op with
      | start =>
          simpa [countFires, timerStep, timerStart] using ih htail
      | reset =>
          exact absurd (List.mem_cons_self _ _) h
      | tick dt =>
          simpa [countFires, timerStep, timerTick] using ih htail

theorem countFires_le_one (dur : Nat) (p : TimerPhase) (ops : List TimerOp)
    (h : TimerOp.reset ∉ ops) : countFires dur p ops ≤ 1 := by
  induction ops generalizing p with
  | nil => simp [countFires]
  | cons op ops ih =>
      have htail : TimerOp.reset ∉ ops := fun hm => h (List.mem_cons_of_mem _ hm)
      cases op with
      | start =>
          simpa [countFires, timerStep] using ih (timerStart p) htail
      | reset =>
          exact absurd (List.mem_cons_self _ _) h
      | tick dt =>
          cases p with
          | idle =>
              simpa [countFires, timerStep, timerTick] using ih TimerPhase.idle htail
          | expiredHandled =>
              simpa [countFires, timerStep, timerTick] using ih TimerPhase.expiredHandled htail
          | running e =>
              by_cases hd : dur ≤ e + dt
              · simp [countFires, timerStep, timerTick, hd,
                  countFires_expiredHandled dur ops htail]
              · simpa [countFires, timerStep, timerTick, hd] using
                  ih (TimerPhase.running (e + dt)) htail

theorem countFires_running_ticks (dur : Nat) (dts : List Nat) (e : Nat) (he : e < dur) :
    countFires dur (TimerPhase.running e) (dts.map TimerOp.tick) =
      if dur ≤ e + dts.sum then 1 else 0 := by
  induction dts generalizing e with
  | nil =>
      simp only [List.map_nil, List.sum_nil]
      rw [if_neg (by omega)]
      rfl
  | cons dt dts ih =>
      simp only [List.map_cons, List.sum_cons, countFires, timerStep, timerTick]
      by_cases hd : dur ≤ e + dt
      · have hnm : TimerOp.reset ∉ dts.map TimerOp.tick := by
          simp [List.mem_map]
        simp [hd, countFires_expiredHandled dur _ hnm]
        rw [if_pos (by omega)]
      · simp only [if_neg hd]
        rw [ih (e + dt) (by omega)]
        simp [Nat.add_assoc]

/-- C7: the IdleTimer is single-shot: along any trace of operations with no
`reset()`, the expiry callback fires at most once from any state; and when the
timer is started and then ticked over exactly the configured (positive)
duration with no intervening reset, the callback fires exactly once. -/
theorem C7_idle_timer_single_shot (dur : Nat) :
    (∀ (p : TimerPhase) (ops : List TimerOp),
        TimerOp.reset ∉ ops → countFires dur p ops ≤ 1) ∧
    (∀ dts : List Nat, 0 < dur → dts.sum = dur →
        countFires dur (timerStart TimerPhase.idle) (dts.map TimerOp.tick) = 1) := by
  constructor
  · intro p ops h
    exact countFires_le_one dur p ops h
  · intro dts hdur hsum
    show countFires dur (TimerPhase.running 0) (dts.map TimerOp.tick) = 1
    rw [countFires_running_ticks dur dts 0 hdur, if_pos (by omega)]

theorem C7_idle_timer_single_shot_witness :
    countFires 60000 TimerPhase.idle [TimerOp.start, TimerOp.tick 60000] ≤ 1 ∧
    countFires 60000 (timerStart TimerPhase.idle)
      ([30000, 30000].map TimerOp.tick) = 1 :=
  ⟨(C7_idle_timer_single_shot 60000).1 TimerPhase.idle
      [TimerOp.start, TimerOp.tick 60000] (by decide),
   (C7_idle_timer_single_shot 60000).2 [30000, 30000] (by decide) (by decide)⟩

/-! ## Field-preservation lemmas for the loop steps -/

@[simp] theorem sleepmode_start_previous (st : SysState) :
    (sleepmode_start st).previous_distance = st.previous_distance := rfl

@[simp] theorem sleepmode_start_stopdistance (st : SysState) :
    (sleepmode_start st).stopdistance = st.stopdistance := rfl

@[simp] theorem sleepmode_start_increment (st : SysState) :
    (sleepmode_start st).increment = st.increment := rfl

@[simp] theorem sleepmode_start_eeprom (st : SysState) :
    (sleepmode_start st).eeprom = st.eeprom := rfl

@[simp] theorem sleepmode_start_LED_sleep (st : SysState) :
    (sleepmode_start st).LED_sleep = true := rfl

@[simp] theorem sleepmode_start_timer (st : SysState) :
    (sleepmode_start st).timer = TimerPhase.idle := rfl

@[simp] theorem sleepmode_start_ledsL (st : SysState) :
    (sleepmode_start st).ledsL = List.replicate NUM_LEDS CRGB.Black := rfl

@[simp] theorem sleepmode_start_ledsR (st : SysState) :
    (sleepmode_start st).ledsR = List.replicate NUM_LEDS CRGB.Black := rfl

@[simp] theorem runTimerStep_previous (st : SysState) (dt : Nat) :
    (runTimerStep st dt).previous_distance = st.previous_distance := by
  unfold runTimerStep; split <;> rfl

@[simp] theorem runTimerStep_stopdistance (st : SysState) (dt : Nat) :
    (runTimerStep st dt).stopdistance = st.stopdistance := by
  unfold runTimerStep; split <;> rfl

@[simp] theorem runTimerStep_increment (st : SysState) (dt : Nat) :
    (runTimerStep st dt).increment = st.increment := by
  unfold runTimerStep; split <;> rfl

@[simp] theorem runTimerStep_eeprom (st : SysState) (dt : Nat) :
    (runTimerStep st dt).eeprom = st.eeprom := by
  unfold runTimerStep; split <;> rfl

@[simp] theorem stabilityStep_stopdistance (st : SysState) (d : Int) :
    (stabilityStep st d).stopdistance = st.stopdistance := by
  unfold stabilityStep; split <;> [skip; rfl]; split <;> rfl

@[simp] theorem stabilityStep_increment (st : SysState) (d : Int) :
    (stabilityStep st d).increment = st.increment := by
  unfold stabilityStep; split <;> [skip; rfl]; split <;> rfl

@[simp] theorem stabilityStep_eeprom (st : SysState) (d : Int) :
    (stabilityStep st d).eeprom = st.eeprom := by
  unfold stabilityStep; split <;> [skip; rfl]; split <;> rfl

@[simp] theorem stabilityStep_ledsL (st : SysState) (d : Int) :
    (stabilityStep st d).ledsL = st.ledsL := by
  unfold stabilityStep; split <;> [skip; rfl]; split <;> rfl

@[simp] theorem stabilityStep_ledsR (st : SysState) (d : Int) :
    (stabilityStep st d).ledsR = st.ledsR := by
  unfold stabilityStep; split <;> [skip; rfl]; split <;> rfl

@[simp] theorem buttonStep_previous (st : SysState) (pressed : Bool) (d : Int) :
    (buttonStep st pressed d).previous_distance = st.previous_distance := by
  unfold buttonStep; split <;> rfl

@[simp] theorem buttonStep_LED_sleep (st : SysState) (pressed : Bool) (d : Int) :
    (buttonStep st pressed d).LED_sleep = st.LED_sleep := by
  unfold buttonStep; split <;> rfl

@[simp] theorem buttonStep_timer (st : SysState) (pressed : Bool) (d : Int) :
    (buttonStep st pressed d).timer = st.timer := by
  unfold buttonStep; split <;> rfl

@[simp] theorem buttonStep_ledsL (st : SysState) (pressed : Bool) (d : Int) :
    (buttonStep st pressed d).ledsL = st.ledsL := by
  unfold buttonStep; split <;> rfl

@[simp] theorem buttonStep_ledsR (st : SysState) (pressed : Bool) (d : Int) :
    (buttonStep st pressed d).ledsR = st.ledsR := by
  unfold buttonStep; split <;> rfl

@[simp] theorem buttonStep_true_stopdistance (st : SysState) (d : Int) :
    (buttonStep st true d).stopdistance = d := rfl

@[simp] theorem buttonStep_true_increment (st : SysState) (d : Int) :
    (buttonStep st true d).increment = (startdistance - d).tdiv (NUM_LEDS : Int) := rfl

@[simp] theorem buttonStep_false (st : SysState) (d : Int) :
    buttonStep st false d = st := rfl

@[simp] theorem displayStep_previous (st : SysState) (d : Int) :
    (displayStep st d).previous_distance = st.previous_distance := by
  unfold displayStep; split <;> rfl

@[simp] theorem displayStep_stopdistance (st : SysState) (d : Int) :
    (displayStep st d).stopdistance = st.stopdistance := by
  unfold displayStep; split <;> rfl

@[simp] theorem displayStep_increment (st : SysState) (d : Int) :
    (displayStep st d).increment = st.increment := by
  unfold displayStep; split <;> rfl

@[simp] theorem displayStep_eeprom (st : SysState) (d : Int) :
    (displayStep st d).eeprom = st.eeprom := by
  unfold displayStep; split <;> rfl

@[simp] theorem displayStep_LED_sleep (st : SysState) (d : Int) :
    (displayStep st d).LED_sleep = st.LED_sleep := by
  unfold displayStep; split <;> rfl

@[simp] theorem displayStep_timer (st : SysState) (d : Int) :
    (displayStep st d).timer = st.timer := by
  unfold displayStep; split <;> rfl

theorem stabilityStep_far (st : SysState) (d : Int)
    (h : ¬ |d - st.previous_distance| < DISTANCE_TOLERANCE) :
    (stabilityStep st d).previous_distance = d ∧
    (stabilityStep st d).LED_sleep = false ∧
    (stabilityStep st d).timer = TimerPhase.idle := by
  unfold stabilityStep
  rw [if_neg h]
  exact ⟨rfl, rfl, rfl⟩

/-! ## C5, C6, C8, C9, C10: controller claims -/

/-- C5 counterexample: pressing the calibration button while the sensor reads
0 sets `stopdistance = 0`, violating `0 < stopdistance`; and pressing it at a
measured distance of 400 (= `startdistance`) leaves `increment = 0` — the
recomputation has no guard. -/
theorem C5_counterexample :
    ¬ (0 < (loopCycle (initState 0) 0 0 true).stopdistance) ∧
    (loopCycle (initState 0) 0 400 true).increment = 0 := by
  constructor
  · decide
  · decide

/-- C5 amended: the invariant `0 < stopdistance < startdistance` holds in the
initial state, but the calibration button action does not preserve it: it
stores the measured distance verbatim (including 0 or values at or beyond
`startdistance`) and recomputes the increment with no guard, so the increment
can become 0 or negative. -/
theorem C5_calibration_unguarded (st : SysState) (dt : Nat) (d : Int) :
    (∀ e : Int, 0 < (initState e).stopdistance ∧
        (initState e).stopdistance < startdistance) ∧
    (loopCycle st dt d true).stopdistance = d ∧
    (loopCycle st dt d true).increment = (startdistance - d).tdiv (NUM_LEDS : Int) := by
  refine ⟨?_, by simp [loopCycle], by simp [loopCycle]⟩
  intro e
  constructor
  · show 0 < setupStopdistance staticStopdistance e
    rw [setupStopdistance, if_neg (by decide)]
    decide
  · show setupStopdistance staticStopdistance e < startdistance
    rw [setupStopdistance, if_neg (by decide)]
    decide

/-- C6: with the never-written storage default 0 modelled from the spec, the
setup logic leaves the static default stop distance in effect (for every
static value, a loaded 0 cannot replace it by anything else), and the
increment the controller derives in the initial state is the valid positive
13, not an invalid one. -/
theorem C6_uncalibrated_fallback :
    (∀ staticStop : Int,
        setupStopdistance staticStop eepromNeverWrittenDefault = staticStop) ∧
    (initState eepromNeverWrittenDefault).stopdistance = staticStopdistance ∧
    (initState eepromNeverWrittenDefault).increment = 13 ∧
    0 < (initState eepromNeverWrittenDefault).increment := by
  refine ⟨?_, by decide, by decide, by decide⟩
  intro s
  unfold setupStopdistance eepromNeverWrittenDefault
  by_cases hs : s = 0
  · rw [if_pos hs, hs]
  · rw [if_neg hs]

/-- C8: a cycle whose measured distance differs from the stored previous
distance by at least the tolerance clears the sleep flag, updates the previous
distance and resets the timer — one such sample suffices, whatever else the
cycle does. -/
theorem C8_wake_on_motion (st : SysState) (dt : Nat) (d : Int) (pressed : Bool)
    (_hasleep : st.LED_sleep = true)
    (hmove : DISTANCE_TOLERANCE ≤ |d - st.previous_distance|) :
    (loopCycle st dt d pressed).LED_sleep = false ∧
    (loopCycle st dt d pressed).previous_distance = d ∧
    (loopCycle st dt d pressed).timer = TimerPhase.idle := by
  have hfar : ¬ |d - (runTimerStep st dt).previous_distance| < DISTANCE_TOLERANCE := by
    rw [runTimerStep_previous]
    exact not_lt.mpr hmove
  have h := stabilityStep_far (runTimerStep st dt) d hfar
  unfold loopCycle
  simp only [displayStep_LED_sleep, displayStep_previous, displayStep_timer,
    buttonStep_LED_sleep, buttonStep_previous, buttonStep_timer]
  exact ⟨h.2.1, h.1, h.2.2⟩

theorem C8_wake_on_motion_witness :
    (loopCycle (sleepmode_start (initState 0)) 0 10 false).LED_sleep = false ∧
    (loopCycle (sleepmode_start (initState 0)) 0 10 false).previous_distance = 10 ∧
    (loopCycle (sleepmode_start (initState 0)) 0 10 false).timer = TimerPhase.idle :=
  C8_wake_on_motion (sleepmode_start (initState 0)) 0 10 false (by decide) (by decide)

theorem buttonStep_inv (st : SysState) (pressed : Bool) (d : Int)
    (hinv : st.increment = (startdistance - st.stopdistance).tdiv (NUM_LEDS : Int)) :
    (buttonStep st pressed d).increment =
      (startdistance - (buttonStep st pressed d).stopdistance).tdiv (NUM_LEDS : Int) := by
  cases pressed
  · simpa using hinv
  · rfl

/-- C9: the relation `increment = (startdistance - stopdistance)/NUM_LEDS` is
preserved by a full loop cycle (the button block recomputes the increment in
the same cycle it changes the stop distance), and whenever the cycle computes
the display, the strip contents are derived from the cycle's final (post-
button) stop distance and increment — never from stale values. -/
theorem C9_increment_never_stale (st : SysState) (dt : Nat) (d : Int) (pressed : Bool)
    (hinv : st.increment = (startdistance - st.stopdistance).tdiv (NUM_LEDS : Int)) :
    ((loopCycle st dt d pressed).increment =
      (startdistance - (loopCycle st dt d pressed).stopdistance).tdiv (NUM_LEDS : Int)) ∧
    ((loopCycle st dt d pressed).LED_sleep = false →
      (loopCycle st dt d pressed).ledsL =
        stripColors startdistance (loopCycle st dt d pressed).stopdistance
          (loopCycle st dt d pressed).increment AMBER_LEDS d NUM_LEDS) := by
  have hinv2 := buttonStep_inv (stabilityStep (runTimerStep st dt) d) pressed d
    (by simpa using hinv)
  constructor
  · unfold loopCycle
    simpa using hinv2
  · intro hawake
    have hawake2 : (buttonStep (stabilityStep (runTimerStep st dt) d) pressed d).LED_sleep
        = false := by
      simpa [loopCycle] using hawake
    unfold loopCycle
    simp only [displayStep_stopdistance, displayStep_increment]
    unfold displayStep
    rw [if_pos hawake2]

theorem C9_increment_never_stale_witness :
    ((loopCycle (initState 0) 0 100 false).increment =
      (startdistance - (loopCycle (initState 0) 0 100 false).stopdistance).tdiv
        (NUM_LEDS : Int)) ∧
    ((loopCycle (initState 0) 0 100 false).LED_sleep = false →
      (loopCycle (initState 0) 0 100 false).ledsL =
        stripColors startdistance (loopCycle (initState 0) 0 100 false).stopdistance
          (loopCycle (initState 0) 0 100 false).increment AMBER_LEDS 100 NUM_LEDS) :=
  C9_increment_never_stale (initState 0) 0 100 false (by decide)

/-- C10: both strip buffers receive identical contents: the equality of the
left and right buffers is preserved by every loop cycle, and `sleepmode_start`
and `setup()` leave the two buffers equal unconditionally. -/
theorem C10_strips_identical (st : SysState) (dt : Nat) (d : Int) (pressed : Bool)
    (h : st.ledsL = st.ledsR) :
    ((loopCycle st dt d pressed).ledsL = (loopCycle st dt d pressed).ledsR) ∧
    (∀ st2 : SysState, (sleepmode_start st2).ledsL = (sleepmode_start st2).ledsR) ∧
    (∀ e : Int, (initState e).ledsL = (initState e).ledsR) := by
  refine ⟨?_, fun st2 => rfl, fun e => rfl⟩
  have h1 : (runTimerStep st dt).ledsL = (runTimerStep st dt).ledsR := by
    unfold runTimerStep
    split
    · rfl
    · exact h
  unfold loopCycle displayStep
  split
  · rfl
  · simpa using h1

theorem C10_strips_identical_witness :
    ((loopCycle (initState 0) 0 100 true).ledsL =
      (loopCycle (initState 0) 0 100 true).ledsR) ∧
    (∀ st2 : SysState, (sleepmode_start st2).ledsL = (sleepmode_start st2).ledsR) ∧
    (∀ e : Int, (initState e).ledsL = (initState e).ledsR) :=
  C10_strips_identical (initState 0) 0 100 true (by decide)

end GarageParking
